import Mathlib

/-
Verification development for the job-scraper service.

The development shallowly embeds the proxy-pool subsystem
(`app/proxy_manager.py`) and the fetch orchestrator
(`app/scrape_jobs.py`, `get_jobs`).  Network effects are made explicit:
the outcome of every network interaction (candidate-list download, proxy
probe, pool acquisition, scrape attempt) is passed in as an argument, and
the embedded functions are the pure decision logic of the Python code.

String processing is embedded at the character-list level
(`String.data`): Python `str.strip`, `str.startswith`, `str.lower`,
substring membership and `c in s` are modelled by the corresponding
`List Char` operations, restricted to ASCII, which is the alphabet the
proxy lists and error messages range over.
-/

namespace JobScraper

/-! ### Character-level models of the Python string primitives -/

/-- The whitespace characters stripped by Python `str.strip()` (ASCII part). -/
def isPySpace (c : Char) : Bool :=
  c = ' ' || c = '\t' || c = '\n' || c = '\r' || c = '\x0b' || c = '\x0c'

/-- Python `str.strip()`: drop whitespace from both ends. -/
def pyStrip (s : String) : String :=
  ⟨(((s.data.dropWhile isPySpace).reverse.dropWhile isPySpace).reverse)⟩

/-- Python `s.startswith(pre)`. -/
def startsWith (s pre : String) : Bool :=
  pre.data.isPrefixOf s.data

/-- Whether `needle` occurs as a contiguous subsequence of `hay`
(Python `needle in hay` on strings). -/
def containsSeq (needle : List Char) : List Char → Bool
  | [] => needle.isEmpty
  | c :: rest => needle.isPrefixOf (c :: rest) || containsSeq needle rest

/-- Python `str.lower()` (ASCII part). -/
def lowerData (s : String) : List Char :=
  s.data.map Char.toLower

/-- Python `"proxy" in str(e).lower()` — the heuristic classifier used by
the orchestrator to decide whether a scrape error is proxy-related. -/
def isProxyError (msg : String) : Bool :=
  containsSeq "proxy".data (lowerData msg)

/-! ### Candidate Source: `ProxyManager._fetch_free_proxies` -/

/-- Per-line normalisation from the body of `_fetch_free_proxies`:
strip; drop blank lines; keep `http://` lines as-is; drop
`socks4://`/`socks5://`/`https://` lines; prefix remaining lines that
contain a colon with `http://`; drop the rest. -/
def format_line (line : String) : Option String :=
  let p := pyStrip line
  if p = "" then none
  else if startsWith p "http://" then some p
  else if startsWith p "socks4://" || startsWith p "socks5://" || startsWith p "https://" then
    none
  else if p.data.contains ':' then some ("http://" ++ p)
  else none

/-- One remote proxy-list download: HTTP status and body.  `none` at the
call site stands for a request that raised. -/
structure SourceResponse where
  status_code : Nat
  text : String
  deriving DecidableEq

/-- Python `response.text.strip().split` on the newline character. -/
def pySplitLines (s : String) : List String :=
  ((pyStrip s).data.splitOn '\n').map fun l => ⟨l⟩

/-- The lines of one successful download, normalised by `format_line`. -/
def parse_response (text : String) : List String :=
  (pySplitLines text).filterMap format_line

/-- `_fetch_free_proxies`, with the network outcome of each configured
source URL as input (`none` = the request raised; non-200 responses are
skipped).  Aggregates the formatted proxies of the successful sources and
deduplicates (`list(set(all_proxies))`). -/
def fetch_free_proxies (responses : List (Option SourceResponse)) : List String :=
  ((responses.filterMap fun r =>
      match r with
      | some resp => if resp.status_code = 200 then some (parse_response resp.text) else none
      | none => none).flatten).dedup

/-! ### Proxy Validator: `ProxyManager._validate_proxies` -/

/-- The collection loop of `_validate_proxies`: walk the candidates in
order, append each working one, and break as soon as 10 have been
collected.  `test` is the outcome of `_test_proxy` for each candidate. -/
def validate_go (test : String → Bool) : List String → List String → List String
  | working, [] => working
  | working, p :: rest =>
    if test p then
      let working' := working ++ [p]
      if 10 ≤ working'.length then working' else validate_go test working' rest
    else validate_go test working rest

/-- `_validate_proxies`: only the first 50 candidates are probed
(`proxies[:50]`), and collection stops after 10 working ones. -/
def validate_proxies (test : String → Bool) (proxies : List String) : List String :=
  validate_go test [] (proxies.take 50)

/-! ### Proxy Pool Cache: `ProxyManager.get_proxy_list` -/

/-- The mutable state of a `ProxyManager`: the cached working list and
the epoch time of the last successful refresh (`0` before any). -/
structure PoolState where
  working_proxies : List String
  last_update : Nat
  deriving DecidableEq

/-- The state of a freshly constructed `ProxyManager`. -/
def initState : PoolState :=
  { working_proxies := [], last_update := 0 }

/-- `update_interval` from `ProxyManager.__init__` (seconds). -/
def update_interval : Nat := 300

/-- The refresh condition of `get_proxy_list`:
`force_refresh or current_time - last_update > update_interval or not working_proxies`. -/
def needs_refresh (force_refresh : Bool) (now : Nat) (s : PoolState) : Bool :=
  force_refresh || decide (update_interval < now - s.last_update) || s.working_proxies.isEmpty

/-- `return self.working_proxies if self.working_proxies else None`. -/
def retOf (s : PoolState) : Option (List String) :=
  if s.working_proxies.isEmpty then none else some s.working_proxies

/-- Result of one `get_proxy_list` call: post state, returned value, and
whether a refresh (and hence a Candidate Source invocation) happened. -/
structure PoolCallResult where
  state : PoolState
  ret : Option (List String)
  refreshed : Bool
  deriving DecidableEq

/-- `get_proxy_list`, with the network outcomes as inputs: `fetch` is
what `_fetch_free_proxies` would return and `test` the per-candidate
outcome of `_test_proxy`.  If a refresh is due and the fetch yields
candidates, the pool and timestamp are replaced with the validation
outcome (even when empty); if the fetch yields nothing, state is left
untouched. -/
def get_proxy_list (fetch : List String) (test : String → Bool) (now : Nat)
    (force_refresh : Bool) (s : PoolState) : PoolCallResult :=
  if needs_refresh force_refresh now s then
    if fetch.isEmpty then
      { state := s, ret := retOf s, refreshed := true }
    else
      let s' : PoolState := { working_proxies := validate_proxies test fetch, last_update := now }
      { state := s', ret := retOf s', refreshed := true }
  else
    { state := s, ret := retOf s, refreshed := false }

/-! ### Data model: `app/models.py` -/

/-- The `job_type` enumeration of `JobSearchParams`. -/
inductive JobType where
  | fulltime
  | parttime
  | internship
  | contract
  deriving DecidableEq

/-- `JobSearchParams` (validated request; the pydantic range constraints
live in the excluded API layer). -/
structure JobSearchParams where
  search_term : String
  location : String
  distance : Nat := 0
  job_type : Option JobType := none
  is_remote : Bool := false
  offset : Nat := 0
  results_wanted : Nat := 10
  hours_old : Nat := 24
  deriving DecidableEq

/-- `Job` — one validated job record (all fields optional). -/
structure Job where
  id : Option String := none
  job_url : Option String := none
  job_url_direct : Option String := none
  location : Option String := none
  title : Option String := none
  company : Option String := none
  job_type : Option String := none
  is_remote : Option Bool := none
  description : Option String := none
  deriving DecidableEq

/-- The `error_type` literal of `ScrapingError`. -/
inductive ErrorType where
  | proxy_unavailable
  | proxy_fetch_failed
  | scraping_failed
  | validation_failed
  deriving DecidableEq

/-- A value in one of the `details` / `metadata` dictionaries. -/
inductive DVal where
  | b (x : Bool)
  | s (x : String)
  | n (x : Nat)
  deriving DecidableEq

/-- `ScrapingError` — structured error information. -/
structure ScrapingError where
  error_type : ErrorType
  message : String
  details : Option (List (String × DVal)) := none
  suggested_actions : List String := []
  deriving DecidableEq

/-- The `search_params` sub-dictionary echoed in success metadata. -/
structure SearchParamsEcho where
  search_term : String
  location : String
  results_wanted : Nat
  deriving DecidableEq

/-- The success `metadata` dictionary.  `fallback_used` and
`original_error` model keys that are present only on the fallback
success path. -/
structure Metadata where
  total_results : Nat
  used_proxies : Nat
  proxy_enabled : Bool
  fallback_used : Option Bool := none
  original_error : Option String := none
  search_params : SearchParamsEcho
  deriving DecidableEq

/-- `JobSearchResponse`. -/
structure JobSearchResponse where
  success : Bool
  jobs : List Job := []
  error : Option ScrapingError := none
  metadata : Option Metadata := none
  deriving DecidableEq

/-! ### Fetch Orchestrator: `app/scrape_jobs.py`, `get_jobs` -/

/-- The keyword bundle passed to the external `scrape_jobs` collaborator.
`job_type = none` models the key being absent from the dict. -/
structure ScrapeKwargs where
  site_name : String
  search_term : String
  location : String
  distance : Nat
  results_wanted : Nat
  hours_old : Nat
  offset : Nat
  is_remote : Bool
  description_format : String
  linkedin_fetch_description : Bool
  proxies : Option (List String)
  job_type : Option JobType
  deriving DecidableEq

/-- The dict built at lines 82–98 of `scrape_jobs.py`. -/
def buildKwargs (params : JobSearchParams) (proxies : Option (List String)) : ScrapeKwargs where
  site_name := "linkedin"
  search_term := params.search_term
  location := params.location
  distance := params.distance
  results_wanted := params.results_wanted
  hours_old := params.hours_old
  offset := params.offset
  is_remote := params.is_remote
  description_format := "markdown"
  linkedin_fetch_description := true
  proxies := proxies
  job_type := params.job_type

/-- Outcome of `proxy_manager.get_proxy_list()` as seen by the
orchestrator: a returned value, or a raised exception with message. -/
inductive PoolAcq where
  | ok (ps : Option (List String))
  | err (msg : String)
  deriving DecidableEq

/-- Outcome of one scrape attempt (the `scrape_jobs` call together with
the normalisation and per-record validation that follow it inside the
same `try`): validated records, or a raised exception with message. -/
inductive ScrapeRes where
  | ok (jobs : List Job)
  | err (msg : String)
  deriving DecidableEq

/-- Python truthiness of the `proxies` variable (`None` and `[]` are
falsy). -/
def pyTruthy : Option (List String) → Bool
  | none => false
  | some l => !l.isEmpty

/-- `len(proxies) if proxies else 0`. -/
def usedProxiesCount (proxies : Option (List String)) : Nat :=
  if pyTruthy proxies then (proxies.getD []).length else 0

/-- Result of one `get_jobs` call: the response, plus the list of
keyword bundles the scrape collaborator was invoked with (in order) and
the number of `get_proxy_list` calls made. -/
structure GetJobsResult where
  response : JobSearchResponse
  calls : List ScrapeKwargs
  poolAcquisitions : Nat
  deriving DecidableEq

/-- The `proxy_unavailable` response (lines 30–48). -/
def proxyUnavailableResponse (useProxies fallbackEnabled : Bool) : JobSearchResponse where
  success := false
  jobs := []
  error := some
    { error_type := .proxy_unavailable
      message := "No working proxies available and fallback is disabled"
      details := some
        [("proxy_system_enabled", .b useProxies),
         ("fallback_enabled", .b fallbackEnabled),
         ("working_proxies", .n 0)]
      suggested_actions :=
        ["Try refreshing the proxy list: POST /admin/refresh-proxies",
         "Enable fallback scraping: set PROXY_FALLBACK_ENABLED=true (may cause rate limiting)",
         "Check proxy system health: GET /health/proxies",
         "Wait a few minutes and try again as new proxies may become available"] }

/-- The `proxy_fetch_failed` response (lines 58–76). -/
def proxyFetchFailedResponse (useProxies fallbackEnabled : Bool) (e : String) : JobSearchResponse where
  success := false
  jobs := []
  error := some
    { error_type := .proxy_fetch_failed
      message := "Failed to fetch proxies and fallback is disabled: " ++ e
      details := some
        [("proxy_system_enabled", .b useProxies),
         ("fallback_enabled", .b fallbackEnabled),
         ("error_details", .s e)]
      suggested_actions :=
        ["Check network connectivity",
         "Try refreshing the proxy list: POST /admin/refresh-proxies",
         "Enable fallback scraping: set PROXY_FALLBACK_ENABLED=true (may cause rate limiting)",
         "Check proxy system health: GET /health/proxies"] }

/-- The first-attempt success response (lines 113–126). -/
def successResponse (jobs : List Job) (proxies : Option (List String))
    (useProxies : Bool) (params : JobSearchParams) : JobSearchResponse where
  success := true
  jobs := jobs
  metadata := some
    { total_results := jobs.length
      used_proxies := usedProxiesCount proxies
      proxy_enabled := useProxies
      search_params :=
        { search_term := params.search_term
          location := params.location
          results_wanted := params.results_wanted } }

/-- The fallback-retry success response (lines 151–166). -/
def fallbackSuccessResponse (jobs : List Job) (useProxies : Bool)
    (originalError : String) (params : JobSearchParams) : JobSearchResponse where
  success := true
  jobs := jobs
  metadata := some
    { total_results := jobs.length
      used_proxies := 0
      proxy_enabled := useProxies
      fallback_used := some true
      original_error := some originalError
      search_params :=
        { search_term := params.search_term
          location := params.location
          results_wanted := params.results_wanted } }

/-- The response when both the proxy attempt and the fallback retry
failed (lines 170–189). -/
def bothFailedResponse (useProxies fallbackEnabled : Bool)
    (originalError fallbackError : String) : JobSearchResponse where
  success := false
  jobs := []
  error := some
    { error_type := .scraping_failed
      message := "Both proxy and fallback scraping failed"
      details := some
        [("original_error", .s originalError),
         ("fallback_error", .s fallbackError),
         ("proxy_enabled", .b useProxies),
         ("fallback_enabled", .b fallbackEnabled)]
      suggested_actions :=
        ["Check network connectivity",
         "Verify search parameters are valid",
         "Try again in a few minutes",
         "Check service status: GET /health/proxies"] }

/-- The no-retry failure response (lines 190–226); message and remedies
depend on whether fallback is enabled. -/
def scrapingFailedResponse (useProxies fallbackEnabled : Bool)
    (proxies : Option (List String)) (e : String) : JobSearchResponse where
  success := false
  jobs := []
  error := some
    { error_type := .scraping_failed
      message :=
        if fallbackEnabled then "Scraping failed: " ++ e
        else "Scraping failed and fallback is disabled: " ++ e
      details := some
        [("error", .s e),
         ("proxy_enabled", .b useProxies),
         ("fallback_enabled", .b fallbackEnabled),
         ("had_proxies", .b (pyTruthy proxies))]
      suggested_actions :=
        if fallbackEnabled then
          ["Check network connectivity",
           "Verify search parameters are valid",
           "Try again in a few minutes",
           "Check if LinkedIn is accessible"]
        else
          ["Enable fallback scraping: set PROXY_FALLBACK_ENABLED=true",
           "Check proxy system: GET /health/proxies",
           "Try refreshing proxies: POST /admin/refresh-proxies",
           "Verify search parameters are valid"] }

/-- The scrape attempt and its exception handler (lines 81–226): one
attempt with the assembled kwargs; on failure, a single retry with the
same kwargs minus proxies, taken only when proxies were truthy, fallback
is enabled and the error text mentions "proxy". -/
def runScrape (useProxies fallbackEnabled : Bool) (proxies : Option (List String))
    (scrape : ScrapeKwargs → ScrapeRes) (params : JobSearchParams)
    (poolAcqs : Nat) : GetJobsResult :=
  let kw := buildKwargs params proxies
  match scrape kw with
  | .ok jobs =>
    { response := successResponse jobs proxies useProxies params
      calls := [kw], poolAcquisitions := poolAcqs }
  | .err e =>
    if pyTruthy proxies && fallbackEnabled && isProxyError e then
      let kw2 := { kw with proxies := none }
      match scrape kw2 with
      | .ok jobs =>
        { response := fallbackSuccessResponse jobs useProxies e params
          calls := [kw, kw2], poolAcquisitions := poolAcqs }
      | .err fe =>
        { response := bothFailedResponse useProxies fallbackEnabled e fe
          calls := [kw, kw2], poolAcquisitions := poolAcqs }
    else
      { response := scrapingFailedResponse useProxies fallbackEnabled proxies e
        calls := [kw], poolAcquisitions := poolAcqs }

/-- `get_jobs`, with the configuration flags (`settings.USE_PROXIES`,
`settings.PROXY_FALLBACK_ENABLED`), the pool-acquisition outcome and the
scrape collaborator passed explicitly. -/
def get_jobs (useProxies fallbackEnabled : Bool) (poolAcq : PoolAcq)
    (scrape : ScrapeKwargs → ScrapeRes) (params : JobSearchParams) : GetJobsResult :=
  if useProxies then
    match poolAcq with
    | .ok ps =>
      if pyTruthy ps then
        runScrape useProxies fallbackEnabled ps scrape params 1
      else if !fallbackEnabled then
        { response := proxyUnavailableResponse useProxies fallbackEnabled
          calls := [], poolAcquisitions := 1 }
      else
        runScrape useProxies fallbackEnabled ps scrape params 1
    | .err e =>
      if !fallbackEnabled then
        { response := proxyFetchFailedResponse useProxies fallbackEnabled e
          calls := [], poolAcquisitions := 1 }
      else
        runScrape useProxies fallbackEnabled none scrape params 1
  else
    runScrape useProxies fallbackEnabled none scrape params 0

/-- The `proxies` local variable of `get_jobs` after the acquisition
phase, in the runs that reach the scrape attempt. -/
def acquiredProxies (useP : Bool) (pa : PoolAcq) : Option (List String) :=
  if useP then (match pa with | .ok ps => ps | .err _ => none) else none

/-- Whether `get_jobs` aborts before any scrape attempt: proxies in use,
fallback disabled, and the pool empty or its acquisition raised. -/
def abortsEarly (useP fb : Bool) (pa : PoolAcq) : Bool :=
  useP && !fb && (match pa with | .ok ps => !pyTruthy ps | .err _ => true)

/-! ### Helper lemmas -/

lemma validate_go_length_le (test : String → Bool) (l : List String) :
    ∀ acc : List String, acc.length < 10 → (validate_go test acc l).length ≤ 10 := by
  induction l with
  | nil => intro acc h; simpa [validate_go] using Nat.le_of_lt h
  | cons p rest ih =>
    intro acc h
    simp only [validate_go]
    by_cases hp : test p
    · simp only [hp, if_true]
      by_cases hlen : 10 ≤ (acc ++ [p]).length
      · rw [if_pos hlen]
        have hlp : (acc ++ [p]).length = acc.length + 1 := by simp
        omega
      · rw [if_neg hlen]
        exact ih _ (by omega)
    · simp only [hp, if_false]
      exact ih _ h

lemma validate_go_mem (test : String → Bool) (l : List String) :
    ∀ acc x, x ∈ validate_go test acc l → x ∈ acc ∨ x ∈ l := by
  induction l with
  | nil => intro acc x hx; simp only [validate_go] at hx; exact Or.inl hx
  | cons p rest ih =>
    intro acc x hx
    simp only [validate_go] at hx
    by_cases hp : test p
    · simp only [hp, if_true] at hx
      by_cases hlen : 10 ≤ (acc ++ [p]).length
      · simp only [if_pos hlen] at hx
        rcases List.mem_append.mp hx with h | h
        · exact Or.inl h
        · simp only [List.mem_singleton] at h
          exact Or.inr (h ▸ List.mem_cons_self p rest)
      · simp only [if_neg hlen] at hx
        rcases ih _ _ hx with h | h
        · rcases List.mem_append.mp h with h | h
          · exact Or.inl h
          · simp only [List.mem_singleton] at h
            exact Or.inr (h ▸ List.mem_cons_self p rest)
        · exact Or.inr (List.mem_cons_of_mem p h)
    · simp only [hp, if_false] at hx
      rcases ih _ _ hx with h | h
      · exact Or.inl h
      · exact Or.inr (List.mem_cons_of_mem p h)

lemma get_proxy_list_ret_eq (fetch : List String) (test : String → Bool) (now : Nat)
    (force : Bool) (s : PoolState) :
    (get_proxy_list fetch test now force s).ret =
      retOf (get_proxy_list fetch test now force s).state := by
  unfold get_proxy_list
  split
  · split <;> rfl
  · rfl

lemma get_proxy_list_not_refresh (fetch : List String) (test : String → Bool) (now : Nat)
    (force : Bool) (s : PoolState) (h : needs_refresh force now s = false) :
    get_proxy_list fetch test now force s =
      { state := s, ret := retOf s, refreshed := false } := by
  simp [get_proxy_list, h]

lemma needs_refresh_false_of_fresh (now : Nat) (s : PoolState)
    (hage : now - s.last_update ≤ update_interval) (hne : s.working_proxies ≠ []) :
    needs_refresh false now s = false := by
  simp only [needs_refresh, Bool.false_or, Bool.or_eq_false_iff, decide_eq_false_iff_not,
    Nat.not_lt, List.isEmpty_eq_false]
  exact ⟨hage, hne⟩

/-! ### Claim theorems: proxy pool subsystem -/

/-- Claim C5: every validation outcome is a subset of the first 50
candidates (hence of the input), and never holds more than 10 proxies. -/
theorem validator_subset_and_bounded (test : String → Bool) (proxies : List String) :
    (∀ x, x ∈ validate_proxies test proxies → x ∈ proxies.take 50 ∧ x ∈ proxies) ∧
    (validate_proxies test proxies).length ≤ 10 := by
  constructor
  · intro x hx
    rcases validate_go_mem test (proxies.take 50) [] x hx with h | h
    · exact absurd h (List.not_mem_nil x)
    · exact ⟨h, List.take_subset 50 proxies h⟩
  · exact validate_go_length_le test (proxies.take 50) [] (by norm_num)

theorem validator_subset_and_bounded_witness :
    ("http://1.2.3.4:80" ∈ (["http://1.2.3.4:80"] : List String).take 50 ∧
     "http://1.2.3.4:80" ∈ (["http://1.2.3.4:80"] : List String)) ∧
    (validate_proxies (fun _ => true) ["http://1.2.3.4:80"]).length ≤ 10 :=
  ⟨(validator_subset_and_bounded (fun _ => true) ["http://1.2.3.4:80"]).1
      "http://1.2.3.4:80" (by decide),
   (validator_subset_and_bounded (fun _ => true) ["http://1.2.3.4:80"]).2⟩

/-- Claim C3: during a refresh, an empty candidate fetch leaves pool and
timestamp untouched; a non-empty fetch replaces both with the validation
outcome and the current time, whatever that outcome is. -/
theorem refresh_frame_effect (fetch : List String) (test : String → Bool) (now : Nat)
    (force : Bool) (s : PoolState) (h : needs_refresh force now s = true) :
    (fetch = [] → (get_proxy_list fetch test now force s).state = s) ∧
    (fetch ≠ [] → (get_proxy_list fetch test now force s).state =
      { working_proxies := validate_proxies test fetch, last_update := now }) := by
  constructor
  · intro hf
    subst hf
    simp [get_proxy_list, h]
  · intro hf
    simp [get_proxy_list, h, List.isEmpty_eq_false.mpr hf]

theorem refresh_frame_effect_witness :
    (get_proxy_list [] (fun _ => false) 400 false initState).state = initState ∧
    (get_proxy_list ["http://1.2.3.4:80"] (fun _ => false) 400 false initState).state =
      { working_proxies := validate_proxies (fun _ => false) ["http://1.2.3.4:80"]
        last_update := 400 } :=
  ⟨(refresh_frame_effect [] (fun _ => false) 400 false initState (by decide)).1 rfl,
   (refresh_frame_effect ["http://1.2.3.4:80"] (fun _ => false) 400 false initState
      (by decide)).2 (by decide)⟩

/-- Claim C4 counterexample: with the cached pool exactly at the TTL age
(age = 300 = TTL, non-empty cache, no force), the claim demands a
refresh, but `get_proxy_list` compares with strict `>` and serves the
cache without refreshing. -/
theorem ttl_boundary_counterexample :
    (300 : Nat) - 0 ≥ update_interval ∧
    (["http://1.2.3.4:80"] : List String) ≠ [] ∧
    (get_proxy_list ["http://5.6.7.8:3128"] (fun _ => true) 300 false
      { working_proxies := ["http://1.2.3.4:80"], last_update := 0 }).refreshed = false ∧
    (get_proxy_list ["http://5.6.7.8:3128"] (fun _ => true) 300 false
      { working_proxies := ["http://1.2.3.4:80"], last_update := 0 }).ret =
      some ["http://1.2.3.4:80"] := by
  decide

/-- Claim C4 (amended): with forceRefresh = false a refresh happens
exactly when the age strictly exceeds the TTL of 300 seconds or the
cached list is empty; at age at most the TTL with a non-empty cache the
cached list is served unchanged; forceRefresh = true always refreshes. -/
theorem ttl_refresh_condition (fetch : List String) (test : String → Bool)
    (now : Nat) (force : Bool) (s : PoolState) :
    (force = false → now - s.last_update ≤ update_interval → s.working_proxies ≠ [] →
      (get_proxy_list fetch test now force s).refreshed = false ∧
      (get_proxy_list fetch test now force s).ret = some s.working_proxies ∧
      (get_proxy_list fetch test now force s).state = s) ∧
    (update_interval < now - s.last_update →
      (get_proxy_list fetch test now force s).refreshed = true) ∧
    (s.working_proxies = [] →
      (get_proxy_list fetch test now force s).refreshed = true) ∧
    (force = true → (get_proxy_list fetch test now force s).refreshed = true) := by
  refine ⟨?_, ?_, ?_, ?_⟩
  · intro hf hage hne
    have hnr : needs_refresh force now s = false := hf ▸ needs_refresh_false_of_fresh now s hage hne
    rw [get_proxy_list_not_refresh fetch test now force s hnr]
    exact ⟨rfl, by simp [retOf, List.isEmpty_eq_false.mpr hne], rfl⟩
  · intro hage
    have hnr : needs_refresh force now s = true := by
      simp [needs_refresh, hage]
    simp only [get_proxy_list, hnr, if_true]
    cases hfe : fetch.isEmpty <;> simp [hfe]
  · intro he
    have hnr : needs_refresh force now s = true := by
      simp [needs_refresh, he]
    simp only [get_proxy_list, hnr, if_true]
    cases hfe : fetch.isEmpty <;> simp [hfe]
  · intro hf
    have hnr : needs_refresh force now s = true := by
      simp [needs_refresh, hf]
    simp only [get_proxy_list, hnr, if_true]
    cases hfe : fetch.isEmpty <;> simp [hfe]

theorem ttl_refresh_condition_witness :
    ((get_proxy_list [] (fun _ => true) 100 false
        { working_proxies := ["http://1.2.3.4:80"], last_update := 0 }).refreshed = false ∧
     (get_proxy_list [] (fun _ => true) 100 false
        { working_proxies := ["http://1.2.3.4:80"], last_update := 0 }).ret =
       some ["http://1.2.3.4:80"] ∧
     (get_proxy_list [] (fun _ => true) 100 false
        { working_proxies := ["http://1.2.3.4:80"], last_update := 0 }).state =
       { working_proxies := ["http://1.2.3.4:80"], last_update := 0 }) ∧
    (get_proxy_list [] (fun _ => true) 400 false
        { working_proxies := ["http://1.2.3.4:80"], last_update := 0 }).refreshed = true ∧
    (get_proxy_list [] (fun _ => true) 100 false initState).refreshed = true ∧
    (get_proxy_list [] (fun _ => true) 100 true
        { working_proxies := ["http://1.2.3.4:80"], last_update := 0 }).refreshed = true :=
  ⟨(ttl_refresh_condition [] (fun _ => true) 100 false
      { working_proxies := ["http://1.2.3.4:80"], last_update := 0 }).1 rfl (by decide) (by decide),
   (ttl_refresh_condition [] (fun _ => true) 400 false
      { working_proxies := ["http://1.2.3.4:80"], last_update := 0 }).2.1 (by decide),
   (ttl_refresh_condition [] (fun _ => true) 100 false initState).2.2.1 rfl,
   (ttl_refresh_condition [] (fun _ => true) 100 true
      { working_proxies := ["http://1.2.3.4:80"], last_update := 0 }).2.2.2 rfl⟩

/-- Claim C8 counterexample: after a refresh whose validation outcome is
empty, `get_proxy_list` returns `none`, the same value it returns in the
never-initialized state (here: initial state with a failed fetch), so
the two situations are not distinguishable by the return value. -/
theorem empty_pool_return_counterexample :
    (get_proxy_list ["http://1.2.3.4:80"] (fun _ => false) 400 false initState).refreshed = true ∧
    (get_proxy_list ["http://1.2.3.4:80"] (fun _ => false) 400 false initState).state.working_proxies = [] ∧
    (get_proxy_list ["http://1.2.3.4:80"] (fun _ => false) 400 false initState).state.last_update = 400 ∧
    (get_proxy_list ["http://1.2.3.4:80"] (fun _ => false) 400 false initState).ret = none ∧
    (get_proxy_list [] (fun _ => true) 50 false initState).state = initState ∧
    (get_proxy_list [] (fun _ => true) 50 false initState).ret = none := by
  decide

/-- Claim C8 (amended): `get_proxy_list` returns the current working list
when it is non-empty, and `none` whenever it is empty — the
refreshed-to-empty pool and the never-initialized pool produce the same
`none` return and are not distinguishable by it. -/
theorem empty_pool_return_shape (fetch : List String) (test : String → Bool)
    (now : Nat) (force : Bool) (s : PoolState) :
    ((get_proxy_list fetch test now force s).state.working_proxies ≠ [] →
      (get_proxy_list fetch test now force s).ret =
        some (get_proxy_list fetch test now force s).state.working_proxies) ∧
    ((get_proxy_list fetch test now force s).state.working_proxies = [] →
      (get_proxy_list fetch test now force s).ret = none) := by
  constructor
  · intro hne
    rw [get_proxy_list_ret_eq]
    simp [retOf, List.isEmpty_eq_false.mpr hne]
  · intro he
    rw [get_proxy_list_ret_eq]
    simp [retOf, he]

theorem empty_pool_return_shape_witness :
    (get_proxy_list [] (fun _ => true) 100 false
      { working_proxies := ["http://1.2.3.4:80"], last_update := 0 }).ret =
      some (get_proxy_list [] (fun _ => true) 100 false
        { working_proxies := ["http://1.2.3.4:80"], last_update := 0 }).state.working_proxies ∧
    (get_proxy_list [] (fun _ => true) 100 false initState).ret = none :=
  ⟨(empty_pool_return_shape [] (fun _ => true) 100 false
      { working_proxies := ["http://1.2.3.4:80"], last_update := 0 }).1 (by decide),
   (empty_pool_return_shape [] (fun _ => true) 100 false initState).2 (by decide)⟩

/-- Claim C9 counterexample: from the empty pool state, two
`get_proxy_list` calls 10 seconds apart with no force-refresh both
trigger a refresh, and with different network outcomes (first fetch
fails, second succeeds) they return different lists, so the
idempotent-cache-read property fails for the empty pool state. -/
theorem cache_read_idempotence_counterexample :
    (110 : Nat) - 100 ≤ update_interval ∧
    (100 : Nat) - initState.last_update ≤ update_interval ∧
    (110 : Nat) - initState.last_update ≤ update_interval ∧
    (get_proxy_list [] (fun _ => false) 100 false initState).ret = none ∧
    (get_proxy_list ["http://1.2.3.4:80"] (fun _ => true) 110 false
      (get_proxy_list [] (fun _ => false) 100 false initState).state).ret =
      some ["http://1.2.3.4:80"] ∧
    (get_proxy_list [] (fun _ => false) 100 false initState).ret ≠
      (get_proxy_list ["http://1.2.3.4:80"] (fun _ => true) 110 false
        (get_proxy_list [] (fun _ => false) 100 false initState).state).ret := by
  decide

/-- Claim C9 (amended): for every pool state whose cached working list
is non-empty, two `get_proxy_list` calls without force-refresh, both
within the TTL counted from the last update, return the identical cached
list — whatever the network would have produced at either call. -/
theorem cache_read_idempotent (fetch1 fetch2 : List String)
    (test1 test2 : String → Bool) (time1 time2 : Nat) (s : PoolState)
    (hne : s.working_proxies ≠ [])
    (h1 : time1 - s.last_update ≤ update_interval)
    (h2 : time2 - s.last_update ≤ update_interval) :
    (get_proxy_list fetch1 test1 time1 false s).ret = some s.working_proxies ∧
    (get_proxy_list fetch2 test2 time2 false
      (get_proxy_list fetch1 test1 time1 false s).state).ret = some s.working_proxies := by
  have hr1 := get_proxy_list_not_refresh fetch1 test1 time1 false s
    (needs_refresh_false_of_fresh time1 s h1 hne)
  have hret : retOf s = some s.working_proxies := by
    simp [retOf, List.isEmpty_eq_false.mpr hne]
  refine ⟨by rw [hr1]; exact hret, ?_⟩
  rw [hr1]
  have hr2 := get_proxy_list_not_refresh fetch2 test2 time2 false s
    (needs_refresh_false_of_fresh time2 s h2 hne)
  rw [hr2]
  exact hret

theorem cache_read_idempotent_witness :
    (get_proxy_list [] (fun _ => false) 100 false
      { working_proxies := ["http://1.2.3.4:80"], last_update := 0 }).ret =
      some ["http://1.2.3.4:80"] ∧
    (get_proxy_list ["http://5.6.7.8:3128"] (fun _ => true) 110 false
      (get_proxy_list [] (fun _ => false) 100 false
        { working_proxies := ["http://1.2.3.4:80"], last_update := 0 }).state).ret =
      some ["http://1.2.3.4:80"] :=
  cache_read_idempotent [] ["http://5.6.7.8:3128"] (fun _ => false) (fun _ => true)
    100 110 { working_proxies := ["http://1.2.3.4:80"], last_update := 0 }
    (by decide) (by decide) (by decide)

/-! ### Helper lemmas: line normalisation -/

lemma startsWith_append (a b : String) : startsWith (a ++ b) a = true := by
  simp only [startsWith, String.data_append]
  exact List.isPrefixOf_iff_prefix.mpr (List.prefix_append a.data b.data)

lemma startsWith_disjoint (p a b : String)
    (hab : a.data.isPrefixOf b.data = false) (hba : b.data.isPrefixOf a.data = false)
    (ha : startsWith p a = true) : startsWith p b = false := by
  by_contra hb
  rw [Bool.not_eq_false] at hb
  have h1 : a.data <+: p.data := List.isPrefixOf_iff_prefix.mp ha
  have h2 : b.data <+: p.data := List.isPrefixOf_iff_prefix.mp hb
  rcases List.prefix_or_prefix_of_prefix h1 h2 with h | h
  · have hc := List.isPrefixOf_iff_prefix.mpr h
    rw [hab] at hc
    exact Bool.false_ne_true hc
  · have hc := List.isPrefixOf_iff_prefix.mpr h
    rw [hba] at hc
    exact Bool.false_ne_true hc

lemma format_line_startsWith_http (line x : String)
    (h : format_line line = some x) : startsWith x "http://" = true := by
  simp only [format_line] at h
  by_cases h1 : pyStrip line = ""
  · rw [if_pos h1] at h
    exact absurd h (by simp)
  · rw [if_neg h1] at h
    by_cases h2 : startsWith (pyStrip line) "http://" = true
    · rw [if_pos h2] at h
      have hx : pyStrip line = x := by injection h
      exact hx ▸ h2
    · rw [if_neg h2] at h
      by_cases h3 : (startsWith (pyStrip line) "socks4://" || startsWith (pyStrip line) "socks5://"
          || startsWith (pyStrip line) "https://") = true
      · rw [if_pos h3] at h
        exact absurd h (by simp)
      · rw [if_neg h3] at h
        by_cases h4 : (pyStrip line).data.contains ':' = true
        · rw [if_pos h4] at h
          have hx : "http://" ++ pyStrip line = x := by injection h
          exact hx ▸ startsWith_append "http://" (pyStrip line)
        · rw [if_neg h4] at h
          exact absurd h (by simp)

/-! ### Claim theorems: Candidate Source -/

/-- Claim C6: every candidate-fetch result is duplicate-free and every
entry carries the `http://` scheme. -/
theorem candidate_source_nodup_http (responses : List (Option SourceResponse)) :
    (fetch_free_proxies responses).Nodup ∧
    ∀ x, x ∈ fetch_free_proxies responses → startsWith x "http://" = true := by
  constructor
  · exact List.nodup_dedup _
  · intro x hx
    rw [fetch_free_proxies] at hx
    rcases List.mem_flatten.mp (List.mem_dedup.mp hx) with ⟨l, hl, hxl⟩
    rcases List.mem_filterMap.mp hl with ⟨r, _, hres⟩
    cases r with
    | none => exact absurd hres (by simp)
    | some resp =>
      simp only at hres
      by_cases hst : resp.status_code = 200
      · rw [if_pos hst] at hres
        have hlp : parse_response resp.text = l := by injection hres
        rw [← hlp] at hxl
        rcases List.mem_filterMap.mp hxl with ⟨line, _, hfl⟩
        exact format_line_startsWith_http line x hfl
      · rw [if_neg hst] at hres
        exact absurd hres (by simp)

theorem candidate_source_nodup_http_witness :
    (fetch_free_proxies [some { status_code := 200, text := "1.2.3.4:8080\n1.2.3.4:8080\nfoo" }]).Nodup ∧
    startsWith "http://1.2.3.4:8080" "http://" = true :=
  ⟨(candidate_source_nodup_http [some { status_code := 200, text := "1.2.3.4:8080\n1.2.3.4:8080\nfoo" }]).1,
   (candidate_source_nodup_http [some { status_code := 200, text := "1.2.3.4:8080\n1.2.3.4:8080\nfoo" }]).2
     "http://1.2.3.4:8080" (by decide)⟩

/-- Claim C7 counterexample: the trimmed line `"1.2.3.4"` is non-blank,
carries no scheme prefix, yet is discarded (the code keeps a scheme-less
line only when it contains a colon), contradicting the claim that every
scheme-less non-blank line contributes an entry. -/
theorem line_format_counterexample :
    pyStrip "1.2.3.4" ≠ "" ∧
    startsWith (pyStrip "1.2.3.4") "http://" = false ∧
    (startsWith (pyStrip "1.2.3.4") "socks4://" || startsWith (pyStrip "1.2.3.4") "socks5://"
      || startsWith (pyStrip "1.2.3.4") "https://") = false ∧
    format_line "1.2.3.4" = none ∧
    format_line "1.2.3.4" ≠ some "http://1.2.3.4" := by
  decide

/-- Claim C7 (amended): per fetched line, after trimming: blank lines are
dropped; an `http://` line is kept as-is; a `socks4://`, `socks5://` or
`https://` line is discarded; any other line is kept with an `http://`
prefix when it contains a colon and discarded when it does not. -/
theorem line_format_cases (line : String) :
    (pyStrip line = "" → format_line line = none) ∧
    (startsWith (pyStrip line) "http://" = true → format_line line = some (pyStrip line)) ∧
    ((startsWith (pyStrip line) "socks4://" || startsWith (pyStrip line) "socks5://"
        || startsWith (pyStrip line) "https://") = true → format_line line = none) ∧
    (pyStrip line ≠ "" → startsWith (pyStrip line) "http://" = false →
      (startsWith (pyStrip line) "socks4://" || startsWith (pyStrip line) "socks5://"
        || startsWith (pyStrip line) "https://") = false →
      ((pyStrip line).data.contains ':' = true →
        format_line line = some ("http://" ++ pyStrip line)) ∧
      ((pyStrip line).data.contains ':' = false → format_line line = none)) := by
  refine ⟨?_, ?_, ?_, ?_⟩
  · intro h
    simp only [format_line]
    rw [if_pos h]
  · intro h
    have hne : pyStrip line ≠ "" := by
      intro hq
      rw [hq] at h
      exact absurd h (by decide)
    simp only [format_line]
    rw [if_neg hne, if_pos h]
  · intro h
    rcases Bool.or_eq_true_iff.mp h with h45 | h5s
    · rcases Bool.or_eq_true_iff.mp h45 with h4 | h5
      · have hne : pyStrip line ≠ "" := by
          intro hq
          rw [hq] at h4
          exact absurd h4 (by decide)
        have hh : startsWith (pyStrip line) "http://" = false :=
          startsWith_disjoint _ "socks4://" "http://" (by decide) (by decide) h4
        simp only [format_line]
        rw [if_neg hne, if_neg (by simp [hh]), if_pos h]
      · have hne : pyStrip line ≠ "" := by
          intro hq
          rw [hq] at h5
          exact absurd h5 (by decide)
        have hh : startsWith (pyStrip line) "http://" = false :=
          startsWith_disjoint _ "socks5://" "http://" (by decide) (by decide) h5
        simp only [format_line]
        rw [if_neg hne, if_neg (by simp [hh]), if_pos h]
    · have hne : pyStrip line ≠ "" := by
        intro hq
        rw [hq] at h5s
        exact absurd h5s (by decide)
      have hh : startsWith (pyStrip line) "http://" = false :=
        startsWith_disjoint _ "https://" "http://" (by decide) (by decide) h5s
      simp only [format_line]
      rw [if_neg hne, if_neg (by simp [hh]), if_pos h]
  · intro hne hh hs
    constructor
    · intro hc
      simp only [format_line]
      rw [if_neg hne, if_neg (by simp [hh]), if_neg (by simp [hs]), if_pos hc]
    · intro hc
      simp only [format_line]
      rw [if_neg hne, if_neg (by simp [hh]), if_neg (by simp [hs]),
        if_neg (by simp only [hc]; exact Bool.false_ne_true)]

theorem line_format_cases_witness :
    format_line "   " = none ∧
    format_line " http://1.2.3.4:80 " = some "http://1.2.3.4:80" ∧
    format_line "socks5://1.2.3.4:80" = none ∧
    format_line "1.2.3.4:80" = some ("http://" ++ pyStrip "1.2.3.4:80") ∧
    format_line "1.2.3.4" = none :=
  ⟨(line_format_cases "   ").1 (by decide),
   (line_format_cases " http://1.2.3.4:80 ").2.1 (by decide),
   (line_format_cases "socks5://1.2.3.4:80").2.2.1 (by decide),
   ((line_format_cases "1.2.3.4:80").2.2.2 (by decide) (by decide) (by decide)).1 (by decide),
   ((line_format_cases "1.2.3.4").2.2.2 (by decide) (by decide) (by decide)).2 (by decide)⟩

/-! ### Helper lemmas: orchestrator -/

lemma runScrape_err_noRetry (useP fb : Bool) (proxies : Option (List String))
    (scrape : ScrapeKwargs → ScrapeRes) (params : JobSearchParams) (n : Nat) (e : String)
    (hs : scrape (buildKwargs params proxies) = .err e)
    (hc : (pyTruthy proxies && fb && isProxyError e) = false) :
    runScrape useP fb proxies scrape params n =
      { response := scrapingFailedResponse useP fb proxies e
        calls := [buildKwargs params proxies], poolAcquisitions := n } := by
  simp only [runScrape, hs, hc]
  rfl

lemma get_jobs_no_abort (useP fb : Bool) (pa : PoolAcq)
    (scrape : ScrapeKwargs → ScrapeRes) (params : JobSearchParams)
    (h : abortsEarly useP fb pa = false) :
    get_jobs useP fb pa scrape params =
      runScrape useP fb (acquiredProxies useP pa) scrape params (if useP then 1 else 0) := by
  cases useP with
  | false => simp [get_jobs, acquiredProxies]
  | true =>
    cases pa with
    | ok ps =>
      by_cases hps : pyTruthy ps = true
      · simp [get_jobs, acquiredProxies, hps]
      · rw [Bool.not_eq_true] at hps
        have hfb : fb = true := by
          simp [abortsEarly, hps] at h
          exact h
        simp [get_jobs, acquiredProxies, hps, hfb]
    | err e =>
      have hfb : fb = true := by
        simp [abortsEarly] at h
        exact h
      simp [get_jobs, acquiredProxies, hfb]

lemma runScrape_response_invariant (useP fb : Bool) (proxies : Option (List String))
    (scrape : ScrapeKwargs → ScrapeRes) (params : JobSearchParams) (n : Nat) :
    ((runScrape useP fb proxies scrape params n).response.success = true ↔
      (runScrape useP fb proxies scrape params n).response.error = none) ∧
    ((runScrape useP fb proxies scrape params n).response.success = false →
      (runScrape useP fb proxies scrape params n).response.jobs = []) := by
  simp only [runScrape]
  cases h1 : scrape (buildKwargs params proxies) with
  | ok jobs => simp [successResponse]
  | err e =>
    dsimp only
    by_cases hc : (pyTruthy proxies && fb && isProxyError e) = true
    · rw [if_pos hc]
      cases h2 : scrape { buildKwargs params proxies with proxies := none } with
      | ok jobs => simp [fallbackSuccessResponse]
      | err fe => simp [bothFailedResponse]
    · rw [if_neg hc]
      simp [scrapingFailedResponse]

/-! ### Claim theorems: Fetch Orchestrator -/

/-- Claim C2: with proxies enabled and fallback disabled, an empty pool
yields a `proxy_unavailable` failure and a raised acquisition yields a
`proxy_fetch_failed` failure, in both cases without any scrape call. -/
theorem no_fallback_abort (params : JobSearchParams) (scrape : ScrapeKwargs → ScrapeRes)
    (ps : Option (List String)) (e : String) (hps : pyTruthy ps = false) :
    ((get_jobs true false (.ok ps) scrape params).calls = [] ∧
     (get_jobs true false (.ok ps) scrape params).response.success = false ∧
     ∃ er, (get_jobs true false (.ok ps) scrape params).response.error = some er ∧
       er.error_type = .proxy_unavailable) ∧
    ((get_jobs true false (.err e) scrape params).calls = [] ∧
     (get_jobs true false (.err e) scrape params).response.success = false ∧
     ∃ er, (get_jobs true false (.err e) scrape params).response.error = some er ∧
       er.error_type = .proxy_fetch_failed) := by
  constructor
  · have hg : get_jobs true false (.ok ps) scrape params =
        { response := proxyUnavailableResponse true false
          calls := [], poolAcquisitions := 1 } := by
      simp [get_jobs, hps]
    rw [hg]
    exact ⟨rfl, rfl, _, rfl, rfl⟩
  · have hg : get_jobs true false (.err e) scrape params =
        { response := proxyFetchFailedResponse true false e
          calls := [], poolAcquisitions := 1 } := by
      simp [get_jobs]
    rw [hg]
    exact ⟨rfl, rfl, _, rfl, rfl⟩

theorem no_fallback_abort_witness :
    ((get_jobs true false (.ok none) (fun _ => ScrapeRes.ok [])
        { search_term := "dev", location := "remote" }).calls = [] ∧
     (get_jobs true false (.ok none) (fun _ => ScrapeRes.ok [])
        { search_term := "dev", location := "remote" }).response.success = false ∧
     ∃ er, (get_jobs true false (.ok none) (fun _ => ScrapeRes.ok [])
        { search_term := "dev", location := "remote" }).response.error = some er ∧
       er.error_type = .proxy_unavailable) ∧
    ((get_jobs true false (.err "connection reset") (fun _ => ScrapeRes.ok [])
        { search_term := "dev", location := "remote" }).calls = [] ∧
     (get_jobs true false (.err "connection reset") (fun _ => ScrapeRes.ok [])
        { search_term := "dev", location := "remote" }).response.success = false ∧
     ∃ er, (get_jobs true false (.err "connection reset") (fun _ => ScrapeRes.ok [])
        { search_term := "dev", location := "remote" }).response.error = some er ∧
       er.error_type = .proxy_fetch_failed) :=
  no_fallback_abort { search_term := "dev", location := "remote" }
    (fun _ => ScrapeRes.ok []) none "connection reset" rfl

/-- Claim C10: every orchestrator response satisfies: `success` holds
iff `error` is absent, and a failed response carries no jobs. -/
theorem response_invariant (useP fb : Bool) (pa : PoolAcq)
    (scrape : ScrapeKwargs → ScrapeRes) (params : JobSearchParams) :
    ((get_jobs useP fb pa scrape params).response.success = true ↔
      (get_jobs useP fb pa scrape params).response.error = none) ∧
    ((get_jobs useP fb pa scrape params).response.success = false →
      (get_jobs useP fb pa scrape params).response.jobs = []) := by
  by_cases habort : abortsEarly useP fb pa = true
  · cases useP with
    | false => simp [abortsEarly] at habort
    | true =>
      cases pa with
      | ok ps =>
        simp only [abortsEarly, Bool.true_and, Bool.and_eq_true, Bool.not_eq_true'] at habort
        have hg : get_jobs true fb (.ok ps) scrape params =
            { response := proxyUnavailableResponse true fb
              calls := [], poolAcquisitions := 1 } := by
          simp [get_jobs, habort.1, habort.2]
        rw [hg]
        simp [proxyUnavailableResponse]
      | err e =>
        simp only [abortsEarly, Bool.true_and, Bool.and_eq_true, Bool.not_eq_true'] at habort
        have hg : get_jobs true fb (.err e) scrape params =
            { response := proxyFetchFailedResponse true fb e
              calls := [], poolAcquisitions := 1 } := by
          simp [get_jobs, habort.1]
        rw [hg]
        simp [proxyFetchFailedResponse]
  · rw [get_jobs_no_abort useP fb pa scrape params (Bool.not_eq_true _ ▸ habort)]
    exact runScrape_response_invariant useP fb (acquiredProxies useP pa) scrape params _

theorem response_invariant_witness :
    (get_jobs true false (.ok none) (fun _ => ScrapeRes.ok [])
      { search_term := "dev", location := "remote" }).response.jobs = [] ∧
    (get_jobs false false (.ok none) (fun _ => ScrapeRes.ok [])
      { search_term := "dev", location := "remote" }).response.error = none :=
  ⟨(response_invariant true false (.ok none) (fun _ => ScrapeRes.ok [])
      { search_term := "dev", location := "remote" }).2 rfl,
   (response_invariant false false (.ok none) (fun _ => ScrapeRes.ok [])
      { search_term := "dev", location := "remote" }).1.mp rfl⟩

/-- Claim C1: a proxy-backed scrape failure whose error text mentions
"proxy" (case-insensitively), with fallback enabled, is retried exactly
once with identical parameters but no proxies and no further pool
acquisition; retry success yields Success with `fallback_used = true`,
`used_proxies = 0` and the original error preserved, retry failure
yields a `scraping_failed` Failure recording both errors; every other
scrape failure is a `scraping_failed` Failure with no retry. -/
theorem proxy_fallback_retry (params : JobSearchParams) (scrape : ScrapeKwargs → ScrapeRes)
    (l : List String) (e : String)
    (hl : l ≠ [])
    (he : isProxyError e = true)
    (hfail : scrape (buildKwargs params (some l)) = .err e) :
    ((get_jobs true true (.ok (some l)) scrape params).calls =
      [buildKwargs params (some l), buildKwargs params none] ∧
     (get_jobs true true (.ok (some l)) scrape params).poolAcquisitions = 1 ∧
     (∀ jobs, scrape (buildKwargs params none) = .ok jobs →
       (get_jobs true true (.ok (some l)) scrape params).response.success = true ∧
       (get_jobs true true (.ok (some l)) scrape params).response.metadata =
         some { total_results := jobs.length
                used_proxies := 0
                proxy_enabled := true
                fallback_used := some true
                original_error := some e
                search_params := { search_term := params.search_term
                                   location := params.location
                                   results_wanted := params.results_wanted } }) ∧
     (∀ fe, scrape (buildKwargs params none) = .err fe →
       (get_jobs true true (.ok (some l)) scrape params).response.success = false ∧
       ∃ er, (get_jobs true true (.ok (some l)) scrape params).response.error = some er ∧
         er.error_type = .scraping_failed ∧
         er.details = some [("original_error", .s e), ("fallback_error", .s fe),
           ("proxy_enabled", .b true), ("fallback_enabled", .b true)])) ∧
    (∀ (useP fb : Bool) (pa : PoolAcq) (e2 : String),
      abortsEarly useP fb pa = false →
      scrape (buildKwargs params (acquiredProxies useP pa)) = .err e2 →
      (pyTruthy (acquiredProxies useP pa) && fb && isProxyError e2) = false →
      (get_jobs useP fb pa scrape params).calls =
        [buildKwargs params (acquiredProxies useP pa)] ∧
      (get_jobs useP fb pa scrape params).response.success = false ∧
      ∃ er, (get_jobs useP fb pa scrape params).response.error = some er ∧
        er.error_type = .scraping_failed) := by
  have hptruthy : pyTruthy (some l) = true := by
    simp [pyTruthy, List.isEmpty_eq_false.mpr hl]
  constructor
  · have hg : get_jobs true true (.ok (some l)) scrape params =
        runScrape true true (some l) scrape params 1 := by
      simp [get_jobs, hptruthy]
    have hkw2 : ({ buildKwargs params (some l) with proxies := none } : ScrapeKwargs) =
        buildKwargs params none := rfl
    rw [hg]
    simp only [runScrape, hfail, hptruthy, he, Bool.true_and, Bool.and_self, if_true, hkw2]
    cases h2 : scrape (buildKwargs params none) with
    | ok jobs =>
      refine ⟨rfl, rfl, ?_, ?_⟩
      · intro jobs2 hj
        have hjj : jobs = jobs2 := by injection hj
        subst hjj
        exact ⟨rfl, rfl⟩
      · intro fe hj
        exact absurd hj (by simp)
    | err fe =>
      refine ⟨rfl, rfl, ?_, ?_⟩
      · intro jobs2 hj
        exact absurd hj (by simp)
      · intro fe2 hj
        have hff : fe = fe2 := by injection hj
        subst hff
        exact ⟨rfl, _, rfl, rfl, rfl⟩
  · intro useP fb pa e2 habort hs hc
    rw [get_jobs_no_abort useP fb pa scrape params habort]
    rw [runScrape_err_noRetry useP fb (acquiredProxies useP pa) scrape params _ e2 hs hc]
    exact ⟨rfl, rfl, _, rfl, rfl⟩

theorem proxy_fallback_retry_witness :
    (get_jobs true true (.ok (some ["http://1.2.3.4:80"]))
      (fun kw => match kw.proxies with
        | some _ => ScrapeRes.err "proxy timeout"
        | none => ScrapeRes.ok [])
      { search_term := "dev", location := "remote" }).calls =
      [buildKwargs { search_term := "dev", location := "remote" } (some ["http://1.2.3.4:80"]),
       buildKwargs { search_term := "dev", location := "remote" } none] ∧
    (get_jobs true true (.ok (some ["http://1.2.3.4:80"]))
      (fun kw => match kw.proxies with
        | some _ => ScrapeRes.err "proxy timeout"
        | none => ScrapeRes.ok [])
      { search_term := "dev", location := "remote" }).poolAcquisitions = 1 ∧
    (get_jobs true true (.ok (some ["http://1.2.3.4:80"]))
      (fun kw => match kw.proxies with
        | some _ => ScrapeRes.err "proxy timeout"
        | none => ScrapeRes.ok [])
      { search_term := "dev", location := "remote" }).response.success = true ∧
    (get_jobs true true (.ok (some ["http://1.2.3.4:80"]))
      (fun kw => match kw.proxies with
        | some _ => ScrapeRes.err "proxy timeout"
        | none => ScrapeRes.ok [])
      { search_term := "dev", location := "remote" }).response.metadata =
      some { total_results := 0
             used_proxies := 0
             proxy_enabled := true
             fallback_used := some true
             original_error := some "proxy timeout"
             search_params := { search_term := "dev", location := "remote"
                                results_wanted := 10 } } := by
  have h := proxy_fallback_retry { search_term := "dev", location := "remote" }
    (fun kw => match kw.proxies with
      | some _ => ScrapeRes.err "proxy timeout"
      | none => ScrapeRes.ok [])
    ["http://1.2.3.4:80"] "proxy timeout" (by decide) (by decide) rfl
  exact ⟨h.1.1, h.1.2.1, (h.1.2.2.1 [] rfl).1, (h.1.2.2.1 [] rfl).2⟩

end JobScraper
